import Mathlib

/-!
Verification of the 93-0000020 Remote Client core (register-command script
interpreter and log-frame decoder) against a shallow Lean embedding of the
Python source.  Python strings are modelled as lists of characters, the
Modbus transport as an oracle list of scripted responses, and Python runtime
exceptions as an explicit error type.  Machine words arriving from the device
are 16-bit values modelled as natural numbers with explicit masking, exactly
as the source masks them.
-/

set_option maxRecDepth 100000

namespace RemoteClient

/-- Python strings are modelled as lists of characters. -/
abbrev PyStr := List Char

/-- Turn a Lean string literal into the character-list model. -/
def ch (s : String) : PyStr := s.data

/-- ASCII single-quote character (written via its code so that string
literals in this file stay quote-free). -/
def sq : Char := Char.ofNat 39

/-- Python runtime exceptions that the modelled fragment can raise. -/
inductive PyErr where
  | typeError
  | indexError
  | attributeError
  | illegalRequest
  | noResponseError
  | nameError (n : PyStr)
  | sysExit (code : Int)
  deriving DecidableEq, Repr

/-- Decimal rendering of a natural number, as Python str() renders it. -/
def pyShowNat (n : Nat) : PyStr := (Nat.repr n).data

/-- Decimal rendering of an integer, as Python str() renders it. -/
def pyShowInt (n : Int) : PyStr := (Int.repr n).data

/-- Python hex() rendering: 0x prefix and lowercase hex digits. -/
def pyHex (n : Nat) : PyStr := ch "0x" ++ Nat.toDigits 16 n

/-- Python f-string {n:02x} rendering: lowercase hex zero-padded to width 2. -/
def pyHex02 (n : Nat) : PyStr :=
  let d := Nat.toDigits 16 n
  (if d.length < 2 then ch "0" else []) ++ d

/-- Strip characters satisfying p from both ends (Python str.strip family). -/
def stripEnds (p : Char → Bool) (s : PyStr) : PyStr :=
  ((s.dropWhile p).reverse.dropWhile p).reverse

/-- Python str.strip() with no arguments: strip whitespace from both ends. -/
def pyStripWs (s : PyStr) : PyStr := stripEnds Char.isWhitespace s

/-- Python str.lower(). -/
def pyLower (s : PyStr) : PyStr := s.map Char.toLower

/-- Python f-string rendering of a string-or-None value: None prints as the
four characters None. -/
def showOptStr : Option PyStr → PyStr
  | some s => s
  | Option.none => ch "None"

/-! ## Decode tables (src/93-0000020.py lines 256-332) -/

/-- Severity table log_levels (line 256): 16 entries. -/
def log_levels : List PyStr :=
  [ch "EMERG", ch "ALERT", ch "CRIT", ch "ERR", ch "WARNING", ch "NOTICE",
   ch "INFO", ch "DEBUG", ch "UNDEF", ch "UNDEF", ch "UNDEF", ch "UNDEF",
   ch "UNDEF", ch "UNDEF", ch "UNDEF", ch "NULL"]

/-- Device table devices (line 258): 3 entries. -/
def devices : List PyStr := [ch "CAN_A", ch "CAN_B", ch "RS485"]

/-- PGN code table pgn_names (lines 261-270). -/
def pgn_names : List (Nat × PyStr) :=
  [(0, ch "null"), (1, ch "ADDRESS_CLAIMED"), (2, ch "J1939_STATUS"),
   (0xFECA, ch "Active DTIC"), (0xFF17, ch "AdvDCS Response"),
   (0xFF15, ch "Controller 1st PGN"), (0xFF19, ch "Controller 2nd PGN"),
   (0xFF22, ch "Controller 3rd PGN"), (0xFF23, ch "Modbus Registers")]

/-- Status table j1939_statuses (lines 277-282): 4 entries. -/
def j1939_statuses : List (Nat × PyStr) :=
  [(0, ch "ADDRESSCLAIM_INIT"), (1, ch "ADDRESSCLAIM_INPROGRESS"),
   (2, ch "NORMALDATATRAFFIC"), (3, ch "ADDRESSCLAIM_FAILED")]

/-- Charger mode table charger_modes (lines 284-289). -/
def charger_modes : List (Nat × PyStr) :=
  [(0, ch "Charging"), (1, ch "Standby"), (2, ch "Off"), (3, ch "Delay")]

/-- Genset status table genset_statuses (lines 291-308). -/
def genset_statuses : List (Nat × PyStr) :=
  [(0, ch "NOT READY TO CRANK"), (1, ch "READY TO CRANK"),
   (2, ch "DELAY TO CRANK - WTR KIT"), (3, ch "DELAY TO CRANK - GLW PLG"),
   (4, ch "CRANK"), (5, ch "RUNNING"), (6, ch "EMERGENCY STOP"),
   (7, ch "IDLE MODE"), (8, ch "POWERING DOWN"), (9, ch "FACTORY TEST"),
   (10, ch "DELAY TO CRANK - WINTER KIT TEST"),
   (11, ch "DELAY TO CRANK - WINTER KIT DETECT"),
   (12, ch "DELAY TO CRANK - ECM DATASAVE"), (13, ch "RUNNING - SYNCHRONIZING"),
   (14, ch "RUNNING - SYNCHRONIZED"), (15, ch "RUNNING - LOAD SHARE")]

/-- Control switch table control_switch_positions (lines 310-315). -/
def control_switch_positions : List (Nat × PyStr) :=
  [(0, ch "Off"), (1, ch "Prime and run Aux fuel"), (2, ch "Prime and run"),
   (3, ch "Start")]

/-- Warmup state table warmup_states (lines 317-321). -/
def warmup_states : List (Nat × PyStr) :=
  [(0, ch "NoAC"), (1, ch "WarmingUp"), (2, ch "Running")]

/-- AC input table ac_inputs (lines 323-326). -/
def ac_inputs : List (Nat × PyStr) :=
  [(0, ch "Not sensed"), (1, ch "Sensed")]

/-- Generator control table gen_controls (lines 328-332). -/
def gen_controls : List (Nat × PyStr) :=
  [(0, ch "Off"), (1, ch "Auto"), (5, ch "On")]

/-- Register map of the first product (24VDC HyPR 6000, src/93-0000020.py
lines 62-139): insertion-ordered name-to-address dictionary. -/
def regsHyPR : List (PyStr × Nat) :=
  [(ch "BIT", 0), (ch "TOTAL_ERRORS", 1), (ch "LOG_HEAD", 2),
   (ch "LOG_TAIL", 3), (ch "LOG_STATUS", 4), (ch "LOG_LEVEL", 5),
   (ch "LOG_CODE", 6), (ch "LOG_DEVICE", 7), (ch "LOG_MSG_LEN", 8),
   (ch "LOG_VALUE0", 9), (ch "LOG_VALUE1", 10), (ch "LOG_VALUE2", 11),
   (ch "LOG_VALUE3", 12), (ch "LOG1_LEVEL", 13), (ch "LOG1_CODE", 14),
   (ch "LOG1_DEVICE", 15), (ch "LOG1_MSG_LEN", 16), (ch "LOG1_VALUE0", 17),
   (ch "LOG1_VALUE1", 18), (ch "LOG1_VALUE2", 19), (ch "LOG1_VALUE3", 20),
   (ch "LOG2_LEVEL", 21), (ch "LOG2_CODE", 22), (ch "LOG2_DEVICE", 23),
   (ch "LOG2_MSG_LEN", 24), (ch "LOG2_VALUE0", 25), (ch "LOG2_VALUE1", 26),
   (ch "LOG2_VALUE2", 27), (ch "LOG2_VALUE3", 28), (ch "LOG3_LEVEL", 29),
   (ch "LOG3_CODE", 30), (ch "LOG3_DEVICE", 31), (ch "LOG3_MSG_LEN", 32),
   (ch "LOG3_VALUE0", 33), (ch "LOG3_VALUE1", 34), (ch "LOG3_VALUE2", 35),
   (ch "LOG3_VALUE3", 36), (ch "START_VOLTAGE", 37), (ch "START_DELAY", 38),
   (ch "STOP_VOLTAGE", 39), (ch "STOP_DELAY", 40), (ch "CRANK_TIMEOUT", 41),
   (ch "REGULATED_VOLTAGE", 42), (ch "MAX_CHARGING_CURRENT", 43),
   (ch "LVCO", 44), (ch "BUS_VOLTAGE", 45), (ch "CURRENTS", 46),
   (ch "GEN_CONTROL", 47), (ch "AGS_STATUS", 48), (ch "AC_INPUT", 49),
   (ch "AMMPS_RESPONSE", 50), (ch "GEN_WARMUP", 51), (ch "WARMUP_STATE", 52),
   (ch "GENERATOR_POWER_SETTINGS", 53), (ch "AVAILABLE_CURRENT", 54),
   (ch "CHARGER_MODE", 55), (ch "PID_KP", 56), (ch "PID_KI", 57),
   (ch "PID_KD", 58), (ch "PID_INPUT", 59), (ch "PID_OUTPUT", 60),
   (ch "PID_SET_POINT", 61), (ch "CHARGING_CURRENT_OFFSET", 62),
   (ch "REGULATED_CURRENT_OFFSET", 63), (ch "VERSION", 64),
   (ch "TOTAL_REGS_SIZE", 65)]

/-- Reverse register lookup, embedding the comprehension at line 725 of the
source: semicolon-join of every register name whose address equals a.  The
source evaluates this over the global regs, which the current version never
binds; showlog therefore reaches this computation only when its regs
parameter carries an actual map (see the Modbus Registers branch there). -/
def reverseRegister (regs : List (PyStr × Nat)) (a : Nat) : PyStr :=
  List.intercalate (ch ";") ((regs.filter (fun p => p.2 == a)).map (fun p => p.1))

/-- List indexing with the Python semantics: out of range raises IndexError. -/
def idx (l : List Nat) (i : Nat) : Except PyErr Nat :=
  match l.get? i with
  | some v => Except.ok v
  | Option.none => Except.error PyErr.indexError

/-! ## Frame decoder: showlog (src/93-0000020.py lines 623-762)

The embedding produces the text that showlog writes to the log file (the
colourised GUI line has the same content because the colour codes red and
black are empty strings in the source).  The timestamp prefix produced by
datetime.now() is abstracted as the parameter now.  The Modbus-Registers
branch of the source reads the module-global regs dictionary; the parameter
regs holds that global binding, and in the program as shipped it is
Option.none, because main() assigns regs only as a local (its global
statement lists window, instrument, log_interval, log_handle, products and
product, not regs), so the branch raises NameError.  The rotating-file side
effect (write_count, flush) is outside the pure decode and is not
modelled. -/

/-- Embedding of showlog: decodes one 8-word log frame into its display
line, or raises the Python exception the source would raise. -/
def showlog (ret : List Nat) (show_time : Bool) (now : PyStr)
    (regs : Option (List (PyStr × Nat))) : Except PyErr PyStr := do
  let line0 : PyStr := if show_time then now ++ ch ", " else []
  let r0 ← idx ret 0
  let line1 := line0 ++
    (if r0 > log_levels.length - 1 then pyShowNat r0 else log_levels.getD r0 [])
  let r1 ← idx ret 1
  let code := List.lookup r1 pgn_names
  let line2 := line1 ++
    (match code with
     | some c => ch ", " ++ c
     | Option.none => ch ", " ++ pyHex r1)
  let r2 ← idx ret 2
  let device := r2 &&& 0x00FF
  let node := r2 >>> 8
  let line3 :=
    if device > devices.length - 1 then
      line2 ++ ch ", illegel device: " ++ pyShowNat device
    else
      let base := line2 ++ ch ", " ++ devices.getD device []
      if node > 0 then base ++ ch ":" ++ pyHex02 node else base
  let r3 ← idx ret 3
  let line4 :=
    if r3 ≤ 8 then line3 ++ ch ", bytes:" ++ pyShowNat r3
    else line3 ++ ch ", bytes(illegal value, max 8):" ++ pyShowNat r3
  let bytes := if r3 ≤ 8 then r3 else 8
  let line5 ←
    if code = some (ch "J1939_STATUS") then do
      let r4 ← idx ret 4
      match List.lookup r4 j1939_statuses with
      | some s => pure (line4 ++ ch ", " ++ s)
      | Option.none =>
        -- source line 673 evaluates hex(j1939_status) with j1939_status None
        Except.error PyErr.typeError
    else if code = some (ch "Controller 1st PGN") then do
      let r4 ← idx ret 4
      let r5 ← idx ret 5
      let r6 ← idx ret 6
      let r7 ← idx ret 7
      pure (line4 ++ ch ", GENERATOR_POWER_SETTINGS:" ++ pyShowNat r4
        ++ ch ", CONTROL_VOLTAGE:" ++ pyShowNat (r5 >>> 8)
        ++ ch ", MAX_CHARGING_CURRENT:" ++ pyShowNat (r5 &&& 0x00FF)
        ++ ch ", START_DELAY:" ++ pyShowNat (r6 >>> 8)
        ++ ch ", STOP_DELAY:" ++ pyShowNat (r6 &&& 0x00FF)
        ++ ch ", LVCO:" ++ pyShowNat r7)
    else if code = some (ch "Controller 2nd PGN") then do
      let r4 ← idx ret 4
      let r5 ← idx ret 5
      let r6 ← idx ret 6
      let r7 ← idx ret 7
      pure (line4 ++ ch ", START_VOLTAGE:" ++ pyShowNat r4
        ++ ch ", STOP_VOLTAGE:" ++ pyShowNat r5
        ++ ch ", UNREGULATED_CURRENT:" ++ pyShowNat (r6 >>> 8)
        ++ ch ", REGULATED_CURRENT:" ++ pyShowNat (r6 &&& 0x00FF)
        ++ ch ", REGULATED_VOLTAGE:" ++ pyShowNat r7)
    else if code = some (ch "Controller 3rd PGN") then do
      let r4 ← idx ret 4
      let r5 ← idx ret 5
      let r6 ← idx ret 6
      let charger_mode := List.lookup (r5 >>> 8) charger_modes
      let bit_low_voltage_warning : PyStr :=
        if r5 &&& 0x0001 = 1 then ch "Low voltage warning" else []
      let bit_lvco : PyStr :=
        if r5 &&& 0x0002 = 1 then ch "LVCO" else []
      let bit := stripEnds (fun c => c == ';')
        (List.intercalate (ch ";") [bit_low_voltage_warning, bit_lvco])
      pure (line4 ++ ch ", BATTERY_VOLTAGE:" ++ pyShowNat r4
        ++ ch ", CHARGER_MODE:" ++ showOptStr charger_mode
        ++ ch ", BIT:" ++ bit
        ++ ch ", CHARGING_CURRENT:" ++ pyShowNat (r6 >>> 8)
        ++ ch ", GEN_CONTROL:" ++ showOptStr (List.lookup (r6 &&& 0x00FF) gen_controls))
    else if code = some (ch "Modbus Registers") then do
      -- line 725 evaluates regs.items() first: an unbound global regs
      -- raises NameError before any value word is read
      match regs with
      | Option.none => Except.error (PyErr.nameError (ch "regs"))
      | some rg => do
        let r4 ← idx ret 4
        let r5 ← idx ret 5
        let register := reverseRegister rg r4
        let value : PyStr :=
          if register = ch "WARMUP_STATE" then showOptStr (List.lookup r5 warmup_states)
          else if register = ch "AC_INPUT" then showOptStr (List.lookup r5 ac_inputs)
          else pyShowNat r5
        pure (line4 ++ ch ", " ++ register ++ ch ":" ++ value)
    else if code = some (ch "AdvDCS Response") then do
      let r4 ← idx ret 4
      pure (line4 ++ ch ", GENSET_STATUS:"
        ++ showOptStr (List.lookup ((r4 >>> 8) &&& 0x0F) genset_statuses)
        ++ ch ", CONTROL_SWITCH_POSITION:"
        ++ showOptStr (List.lookup (((r4 >>> 8) &&& 0x40) >>> 4) control_switch_positions))
    else do
      -- unformatted data fallback (lines 741-751)
      let words := (ret.drop 4).take (bytes / 2)
      let dataPart := words.foldl
        (fun acc w => acc ++ pyHex (w >>> 8) ++ ch " " ++ pyHex (w &&& 0x00FF) ++ ch " ") []
      let base := line4 ++ ch ", data: " ++ dataPart
      if bytes % 2 = 1 then do
        let w ← idx ret (4 + (bytes + 1) / 2)
        pure (base ++ pyHex (w >>> 8) ++ ch " ")
      else
        pure base
  pure (line5 ++ ch "\n")

/-! ## Script interpreter data model -/

/-- Python values flowing through the script interpreter: coerced script
cells, transport results, and the None placeholder.  Float values are kept
as exact rationals: the scripts only classify and compare them, and IEEE
rounding of decimal literals is not modelled. -/
inductive PyVal where
  | int (n : Int)
  | float (q : Rat)
  | bool (b : Bool)
  | str (s : PyStr)
  | none
  | list (vs : List Nat)
  deriving DecidableEq, Repr

/-- Display of a float value.  Python prints the shortest repr of the IEEE
double; floating-point printing is not modelled, so the exact rational is
shown instead.  No claim in this development inspects float display text. -/
def pyShowRat (q : Rat) : PyStr := (toString q).data

/-- Python str() of a value, as f-strings render it. -/
def pyShow : PyVal → PyStr
  | PyVal.int n => pyShowInt n
  | PyVal.float q => pyShowRat q
  | PyVal.bool b => if b then ch "True" else ch "False"
  | PyVal.str s => s
  | PyVal.none => ch "None"
  | PyVal.list vs => ch "[" ++ List.intercalate (ch ", ") (vs.map pyShowNat) ++ ch "]"

/-- Python truthiness. -/
def pyTruthy : PyVal → Bool
  | PyVal.int n => n != 0
  | PyVal.float q => q != 0
  | PyVal.bool b => b
  | PyVal.str s => ! s.isEmpty
  | PyVal.none => false
  | PyVal.list vs => ! vs.isEmpty

/-- Numeric view of a value: int, float and bool interoperate numerically in
Python comparisons; str, None and list do not. -/
def toRatNum : PyVal → Option Rat
  | PyVal.int n => some (n : Rat)
  | PyVal.float q => some q
  | PyVal.bool b => some (if b then 1 else 0)
  | _ => Option.none

/-- Scripted response of the Modbus transport oracle: a successful word, a
successful word list, or one of the three minimalmodbus error conditions
(IllegalRequestError, InvalidResponseError, NoResponseError).  An exhausted
oracle behaves as a timeout. -/
inductive TResp where
  | ok (v : Nat)
  | okMany (vs : List Nat)
  | illegal
  | invalid
  | noResponse
  deriving DecidableEq, Repr

/-- Transport call issued to the instrument, recorded for the theorems that
count or exclude transport traffic. -/
inductive TCall where
  | readOne (addr : Nat)
  | readMany (addr : Nat) (count : PyVal)
  | writeOne (addr : Nat) (v : PyVal)
  deriving DecidableEq, Repr

/-- Transport-facing state: the remaining oracle responses, the calls issued
so far, and the comm_status global.  The comm_status texts carry str(e) of a
library exception in the source; the library message is abstracted to a
fixed short text per condition and no claim inspects it. -/
structure TState where
  trans : List TResp
  calls : List TCall
  comm : PyStr
  deriving DecidableEq, Repr

/-- Next oracle response. -/
def nextResp : List TResp → TResp × List TResp
  | [] => (TResp.noResponse, [])
  | r :: rs => (r, rs)

/-- Outcome of a wrapped transport operation: a returned value or a raised
exception. -/
inductive RRes where
  | val (v : PyVal)
  | raise (e : PyErr)
  deriving DecidableEq, Repr

/-- Embedding of read_register (src/93-0000020.py lines 766-785):
IllegalRequestError sets comm_status and re-raises; InvalidResponseError and
NoResponseError set comm_status, print, and fall through returning None. -/
def read_register (addr : Nat) (st : TState) : RRes × TState :=
  let (r, rest) := nextResp st.trans
  let st1 : TState := ⟨rest, st.calls ++ [TCall.readOne addr], st.comm⟩
  match r with
  | TResp.ok v => (RRes.val (PyVal.int v), st1)
  | TResp.okMany vs => (RRes.val (PyVal.list vs), st1)
  | TResp.illegal => (RRes.raise PyErr.illegalRequest, { st1 with comm := ch "Illegal request" })
  | TResp.invalid => (RRes.val PyVal.none, { st1 with comm := ch "Invalid response" })
  | TResp.noResponse => (RRes.val PyVal.none, { st1 with comm := ch "No response" })

/-- Embedding of read_registers (lines 788-808): every error condition sets
comm_status, prints and returns None; nothing is re-raised (the NameError
branch for a disconnected instrument is outside the model). -/
def read_registers (addr : Nat) (cnt : PyVal) (st : TState) : PyVal × TState :=
  let (r, rest) := nextResp st.trans
  let st1 : TState := ⟨rest, st.calls ++ [TCall.readMany addr cnt], st.comm⟩
  match r with
  | TResp.ok v => (PyVal.list [v], st1)
  | TResp.okMany vs => (PyVal.list vs, st1)
  | TResp.illegal => (PyVal.none, { st1 with comm := ch "Illegal request" })
  | TResp.invalid => (PyVal.none, { st1 with comm := ch "Invalid response" })
  | TResp.noResponse => (PyVal.none, { st1 with comm := ch "No response" })

/-- Embedding of write_register (lines 812-828): all three error conditions
are caught and turned into a result text that is also stored in comm_status;
success returns OK and clears comm_status. -/
def write_register (addr : Nat) (v : PyVal) (st : TState) : PyStr × TState :=
  let (r, rest) := nextResp st.trans
  let st1 : TState := ⟨rest, st.calls ++ [TCall.writeOne addr v], st.comm⟩
  match r with
  | TResp.ok _ => (ch "OK", { st1 with comm := [] })
  | TResp.okMany _ => (ch "OK", { st1 with comm := [] })
  | TResp.illegal =>
    (ch "Illegal request error", { st1 with comm := ch "Illegal request error" })
  | TResp.invalid =>
    (ch "Invalid response error", { st1 with comm := ch "Invalid response error" })
  | TResp.noResponse =>
    (ch "No communication with the instrument (null answer)",
     { st1 with comm := ch "No communication with the instrument (null answer)" })

/-! ## Assertion expressions

The source evaluates assertions with Python eval over the single binding
x = result, catching NameError, TypeError and SyntaxError.  The embedding
models the fragment of Python expressions the scripts use: an optional
comparison between two atoms, an atom being the bound identifier, a keyword
literal, or an integer literal.  Exception message texts are abstracted to
short fixed strings; the claims only inspect the PASS, FAIL and ERROR
markers around them. -/

/-- Value of a string of decimal digits. -/
def digitsToNat (ds : PyStr) : Nat := ds.foldl (fun a c => a * 10 + (c.toNat - 48)) 0

/-- Comparison operators of the assertion fragment. -/
inductive CmpOp where
  | lt | le | gt | ge | eq | ne
  deriving DecidableEq, Repr

/-- Atoms of the assertion fragment. -/
inductive AVal where
  | vInt (n : Int)
  | vName (s : PyStr)
  deriving DecidableEq, Repr

/-- Parsed assertion expression. -/
inductive AExpr where
  | atom (a : AVal)
  | cmp (l : AVal) (o : CmpOp) (r : AVal)
  deriving DecidableEq, Repr

/-- Errors of assertion evaluation; exactly the three exception classes the
source catches. -/
inductive EvalErr where
  | nameErr (n : PyStr)
  | typeErr
  | synErr
  deriving DecidableEq, Repr

/-- Message text of an evaluation error (Python message wording abstracted). -/
def errText : EvalErr → PyStr
  | EvalErr.nameErr n => ch "name " ++ [sq] ++ n ++ [sq] ++ ch " is not defined"
  | EvalErr.typeErr => ch "comparison not supported between result and operand"
  | EvalErr.synErr => ch "invalid syntax"

/-- Skip blanks. -/
def skipSpaces (s : PyStr) : PyStr := s.dropWhile (fun c => c == ' ')

/-- Identifier continuation characters. -/
def isIdentChar (c : Char) : Bool := c.isAlphanum || c == '_'

/-- Parse one atom: an integer literal (optionally negated) or a name. -/
def parseAtom (s : PyStr) : Option (AVal × PyStr) :=
  match skipSpaces s with
  | [] => Option.none
  | c :: rest =>
    if c.isDigit then
      some (AVal.vInt (digitsToNat ((c :: rest).takeWhile Char.isDigit)),
            (c :: rest).dropWhile Char.isDigit)
    else if c == '-' then
      match rest.takeWhile Char.isDigit with
      | [] => Option.none
      | ds => some (AVal.vInt (-(digitsToNat ds : Int)), rest.dropWhile Char.isDigit)
    else if c.isAlpha || c == '_' then
      some (AVal.vName ((c :: rest).takeWhile isIdentChar),
            (c :: rest).dropWhile isIdentChar)
    else Option.none

/-- Parse a comparison operator. -/
def parseCmpOp (s : PyStr) : Option (CmpOp × PyStr) :=
  match skipSpaces s with
  | '<' :: '=' :: r => some (CmpOp.le, r)
  | '>' :: '=' :: r => some (CmpOp.ge, r)
  | '=' :: '=' :: r => some (CmpOp.eq, r)
  | '!' :: '=' :: r => some (CmpOp.ne, r)
  | '<' :: r => some (CmpOp.lt, r)
  | '>' :: r => some (CmpOp.gt, r)
  | _ => Option.none

/-- Parse a whole assertion expression; any leftover input is a syntax
error. -/
def parseAssert (s : PyStr) : Option AExpr :=
  match parseAtom s with
  | Option.none => Option.none
  | some (a, r1) =>
    match parseCmpOp r1 with
    | Option.none => if skipSpaces r1 = [] then some (AExpr.atom a) else Option.none
    | some (o, r2) =>
      match parseAtom r2 with
      | Option.none => Option.none
      | some (b, r3) => if skipSpaces r3 = [] then some (AExpr.cmp a o b) else Option.none

/-- Evaluate an atom under the single binding x = result; Python keyword
literals are available, any other name raises NameError. -/
def evalAVal (x : PyVal) : AVal → Except EvalErr PyVal
  | AVal.vInt n => Except.ok (PyVal.int n)
  | AVal.vName s =>
    if s = ch "x" then Except.ok x
    else if s = ch "True" then Except.ok (PyVal.bool true)
    else if s = ch "False" then Except.ok (PyVal.bool false)
    else if s = ch "None" then Except.ok PyVal.none
    else Except.error (EvalErr.nameErr s)

/-- Lexicographic strict order on strings (Python str comparison). -/
def strLt : PyStr → PyStr → Bool
  | [], [] => false
  | [], _ :: _ => true
  | _ :: _, [] => false
  | a :: as, b :: bs => if a < b then true else if b < a then false else strLt as bs

/-- Python equality: numeric values compare numerically, same-shape
non-numeric values structurally, mismatched types are unequal (no error). -/
def pyEqVal (a b : PyVal) : Bool :=
  match toRatNum a, toRatNum b with
  | some qa, some qb => qa == qb
  | _, _ =>
    match a, b with
    | PyVal.str sa, PyVal.str sb => sa == sb
    | PyVal.none, PyVal.none => true
    | PyVal.list va, PyVal.list vb => va == vb
    | _, _ => false

/-- Rational comparison under an operator. -/
def cmpRat (o : CmpOp) (x y : Rat) : Bool :=
  match o with
  | CmpOp.lt => decide (x < y)
  | CmpOp.le => decide (x ≤ y)
  | CmpOp.gt => decide (y < x)
  | CmpOp.ge => decide (y ≤ x)
  | CmpOp.eq => x == y
  | CmpOp.ne => x != y

/-- String comparison under an operator. -/
def cmpStr (o : CmpOp) (x y : PyStr) : Bool :=
  match o with
  | CmpOp.lt => strLt x y
  | CmpOp.le => strLt x y || x == y
  | CmpOp.gt => strLt y x
  | CmpOp.ge => strLt y x || x == y
  | CmpOp.eq => x == y
  | CmpOp.ne => x != y

/-- Python comparison semantics on the modelled values: equality never
raises; order comparisons need two numeric or two string operands and raise
TypeError otherwise (None or a placeholder string against a number). -/
def pyCompare (a : PyVal) (o : CmpOp) (b : PyVal) : Except EvalErr PyVal :=
  match o with
  | CmpOp.eq => Except.ok (PyVal.bool (pyEqVal a b))
  | CmpOp.ne => Except.ok (PyVal.bool (! pyEqVal a b))
  | _ =>
    match toRatNum a, toRatNum b with
    | some qa, some qb => Except.ok (PyVal.bool (cmpRat o qa qb))
    | _, _ =>
      match a, b with
      | PyVal.str sa, PyVal.str sb => Except.ok (PyVal.bool (cmpStr o sa sb))
      | _, _ => Except.error EvalErr.typeErr

/-- Embedding of eval(assertion, {}, {x: result}) on the modelled
fragment. -/
def evalAssertion (s : PyStr) (x : PyVal) : Except EvalErr PyVal :=
  match parseAssert s with
  | Option.none => Except.error EvalErr.synErr
  | some (AExpr.atom a) => evalAVal x a
  | some (AExpr.cmp a o b) =>
    match evalAVal x a, evalAVal x b with
    | Except.ok va, Except.ok vb => pyCompare va o vb
    | Except.error e, _ => Except.error e
    | Except.ok _, Except.error e => Except.error e

/-! ## Script line execution: do_script_line (lines 389-467) -/

/-- Text appended after a result by the assertion block (lines 445-454):
nothing without an assertion, then PASS, FAIL or an ERROR marker with the
exception text. -/
def assertText (assertion : PyStr) (result : PyVal) : PyStr :=
  if assertion = [] then []
  else
    match evalAssertion assertion result with
    | Except.error e => ch ": *** ERROR *** " ++ errText e
    | Except.ok v => if pyTruthy v then ch ": PASS" else ch ": *** FAIL ***"

/-- Resolution of line[0] in the product register dictionary (line 394).
The error text is str(e) of the exception the source catches: the quoted
key for a KeyError on a missing string key, the str of a non-string key,
or the IndexError text for an empty row. -/
def resolveAddr (line : List PyVal) (regs : List (PyStr × Nat)) : Except PyStr Nat :=
  match line.get? 0 with
  | Option.none => Except.error (ch "list index out of range")
  | some (PyVal.str s) =>
    match List.lookup s regs with
    | some a => Except.ok a
    | Option.none => Except.error ([sq] ++ s ++ [sq])
  | some v => Except.error (pyShow v)

/-- Python val > 1 (lines 418 and 432): numeric operands compare, any other
operand raises TypeError. -/
def pyGt1 (v : PyVal) : Except PyErr Bool :=
  match toRatNum v with
  | some q => Except.ok (decide (1 < q))
  | Option.none => Except.error PyErr.typeError

/-- Python range(iterations): int (or bool) only, anything else raises
TypeError; a negative count yields zero iterations. -/
def toIterations : PyVal → Except PyErr Nat
  | PyVal.int n => Except.ok n.toNat
  | PyVal.bool b => Except.ok (if b then 1 else 0)
  | _ => Except.error PyErr.typeError

/-- Description cell handling (line 408): empty when absent or blank,
stripped otherwise; calling strip() on a non-string cell raises
AttributeError. -/
def descOf (line : List PyVal) : Except PyErr PyStr :=
  if line.length < 6 then Except.ok []
  else match line.get? 5 with
    | some (PyVal.str s) =>
      Except.ok (if (pyStripWs s).length = 0 then [] else pyStripWs s)
    | some _ => Except.error PyErr.attributeError
    | Option.none => Except.ok []

/-- Assertion extraction from the description (lines 409-412). -/
def assertionOf (desc0 : PyStr) : PyStr :=
  if desc0.length ≥ 7 && pyLower (desc0.take 7) == ch "assert:" then
    pyStripWs (desc0.drop 7)
  else []

/-- Display form of the description (line 413). -/
def descDisplay (desc0 : PyStr) : PyStr :=
  if desc0 = [] then ch ": " else ch " [" ++ desc0 ++ ch "]: "

/-- Per-row configuration fixed before the iteration loop. -/
structure DslCfg where
  addr : Nat
  write : Bool
  val : PyVal
  valGT1 : Bool
  assertion : PyStr
  iterations : Nat
  deriving DecidableEq, Repr

/-- One loop iteration body of the current version (lines 428-444): the
write path appends the result text of write_register; the multi-read path
appends str of the list-or-None; the single-read path catches
IllegalRequestError, substituting the placeholder string (Null). -/
def dslIter (cfg : DslCfg) (st : TState) : PyStr × PyVal × TState :=
  if cfg.write then
    let (res, st1) := write_register cfg.addr cfg.val st
    (res, PyVal.str res, st1)
  else if cfg.valGT1 then
    let (res, st1) := read_registers cfg.addr cfg.val st
    (pyShow res, res, st1)
  else
    match read_register cfg.addr st with
    | (RRes.val v, st1) => (pyShow v, v, st1)
    | (RRes.raise _, st1) => (ch "(Null)", PyVal.str (ch "(Null)"), st1)

/-- Iteration loop of the current version (lines 425-461): iteration number
prefix when repeating, result text, assertion text, separator between
iterations, and a newline after every iteration.  The GUI refresh and the
sleep are outside the model. -/
def dslLoop (cfg : DslCfg) : Nat → Nat → PyStr → TState → PyStr × TState
  | 0, _, acc, st => (acc, st)
  | k + 1, i, acc, st =>
    let acc1 := if cfg.iterations > 1 then acc ++ pyShowNat (i + 1) ++ ch ":" else acc
    let (txt, result, st1) := dslIter cfg st
    let acc2 := acc1 ++ txt ++ assertText cfg.assertion result
    let acc3 := if i + 1 < cfg.iterations then acc2 ++ ch "; " else acc2
    dslLoop cfg k (i + 1) (acc3 ++ ch "\n") st1

/-- Result of do_script_line: the new report text and the transport state. -/
structure DslRes where
  ret : PyStr
  st : TState
  deriving DecidableEq, Repr

/-- Embedding of do_script_line of the current version (src/93-0000020.py
lines 389-467).  A failed register-name resolution is caught by the broad
except handler: the message is stored in comm_status, appended to the
preserved report, and the function returns without touching the transport.
Otherwise the row parses its cells, builds the header, and runs the
iteration loop. -/
def do_script_line (line : List PyVal) (preserve : PyStr)
    (regs : List (PyStr × Nat)) (st0 : TState) : Except PyErr DslRes :=
  match resolveAddr line regs with
  | Except.error emsg =>
    let comm := ch "Unexpected register name: " ++ emsg ++ ch ". *** FAIL ***"
    Except.ok ⟨preserve ++ comm, { st0 with comm := comm }⟩
  | Except.ok addr => do
    let st : TState := { st0 with comm := [] }
    let val ← match line.get? 1 with
      | some v => Except.ok v
      | Option.none => Except.error PyErr.indexError
    let write := if line.length < 3 then false else pyTruthy (line.getD 2 PyVal.none)
    let iterations ← if line.length < 5 then Except.ok 1 else toIterations (line.getD 4 PyVal.none)
    let desc0 ← descOf line
    let assertion := assertionOf desc0
    let name := pyShow (line.getD 0 PyVal.none)
    let header ←
      if write then Except.ok (ch "Write " ++ pyShow val ++ ch " to " ++ name)
      else do
        let gt1 ← pyGt1 val
        if gt1 then
          Except.ok (ch "Read " ++ pyShow val ++ ch " registers starting at " ++ name)
        else Except.ok (ch "Read from " ++ name)
    let valGT1 ← if write then Except.ok false else pyGt1 val
    let cfg : DslCfg := ⟨addr, write, val, valGT1, assertion, iterations⟩
    let res := dslLoop cfg iterations 0 (preserve ++ header ++ descDisplay desc0) st
    Except.ok ⟨res.1, res.2⟩

/-! ## The V1.01 build variant of the script line interpreter -/

/-- Embedding of read_register of the V1.01 build (old file lines 236-252):
IllegalRequestError re-raises, InvalidResponseError exits the process with
code 74, NoResponseError falls through returning None. -/
def read_register_v101 (addr : Nat) (st : TState) : RRes × TState :=
  let (r, rest) := nextResp st.trans
  let st1 : TState := ⟨rest, st.calls ++ [TCall.readOne addr], st.comm⟩
  match r with
  | TResp.ok v => (RRes.val (PyVal.int v), st1)
  | TResp.okMany vs => (RRes.val (PyVal.list vs), st1)
  | TResp.illegal => (RRes.raise PyErr.illegalRequest, st1)
  | TResp.invalid => (RRes.raise (PyErr.sysExit 74), st1)
  | TResp.noResponse => (RRes.val PyVal.none, st1)

/-- Embedding of read_registers of the V1.01 build (lines 254-269): all
three transport errors fall through or return None. -/
def read_registers_v101 (addr : Nat) (cnt : PyVal) (st : TState) : PyVal × TState :=
  let (r, rest) := nextResp st.trans
  let st1 : TState := ⟨rest, st.calls ++ [TCall.readMany addr cnt], st.comm⟩
  match r with
  | TResp.ok v => (PyVal.list [v], st1)
  | TResp.okMany vs => (PyVal.list vs, st1)
  | TResp.illegal => (PyVal.none, st1)
  | TResp.invalid => (PyVal.none, st1)
  | TResp.noResponse => (PyVal.none, st1)

/-- Embedding of write_register of the V1.01 build (lines 273-282): catches
Illegal and Invalid, but a NoResponseError propagates. -/
def write_register_v101 (addr : Nat) (v : PyVal) (st : TState) : RRes × TState :=
  let (r, rest) := nextResp st.trans
  let st1 : TState := ⟨rest, st.calls ++ [TCall.writeOne addr v], st.comm⟩
  match r with
  | TResp.ok _ => (RRes.val (PyVal.str (ch "OK")), st1)
  | TResp.okMany _ => (RRes.val (PyVal.str (ch "OK")), st1)
  | TResp.illegal => (RRes.val (PyVal.str (ch "Illegal request error")), st1)
  | TResp.invalid => (RRes.val (PyVal.str (ch "Invalid response error")), st1)
  | TResp.noResponse => (RRes.raise PyErr.noResponseError, st1)

/-- One loop iteration of the V1.01 build (old file lines 153-174): no
try block around the reads, so a raised transport exception propagates. -/
def dslIter_v101 (cfg : DslCfg) (st : TState) : Except PyErr (PyStr × PyVal × TState) :=
  if cfg.write then
    match write_register_v101 cfg.addr cfg.val st with
    | (RRes.val (PyVal.str s), st1) => Except.ok (s, PyVal.str s, st1)
    | (RRes.val v, st1) => Except.ok (pyShow v, v, st1)
    | (RRes.raise e, _) => Except.error e
  else if cfg.valGT1 then
    let (res, st1) := read_registers_v101 cfg.addr cfg.val st
    Except.ok (pyShow res, res, st1)
  else
    match read_register_v101 cfg.addr st with
    | (RRes.val v, st1) => Except.ok (pyShow v, v, st1)
    | (RRes.raise e, _) => Except.error e

/-- Iteration loop of the V1.01 build: same accumulation, but the newline
is appended once after the loop, not per iteration. -/
def dslLoop_v101 (cfg : DslCfg) : Nat → Nat → PyStr → TState → Except PyErr (PyStr × TState)
  | 0, _, acc, st => Except.ok (acc, st)
  | k + 1, i, acc, st => do
    let acc1 := if cfg.iterations > 1 then acc ++ pyShowNat (i + 1) ++ ch ":" else acc
    let (txt, result, st1) ← dslIter_v101 cfg st
    let acc2 := acc1 ++ txt ++ assertText cfg.assertion result
    let acc3 := if i + 1 < cfg.iterations then acc2 ++ ch "; " else acc2
    dslLoop_v101 cfg k (i + 1) acc3 st1

/-- Header register display of the V1.01 build: list(regs.keys())[addr]
indexes the name list by address and raises IndexError out of range. -/
def keyAtAddr (regs : List (PyStr × Nat)) (addr : Nat) : Except PyErr PyStr :=
  match (regs.map (fun p => p.1)).get? addr with
  | some n => Except.ok n
  | Option.none => Except.error PyErr.indexError

/-- Embedding of do_script_line of the V1.01 build (old file lines
122-185).  Only KeyError is caught at name resolution, and the handler
assigns (not appends) the unknown-key marker to the report, discarding the
preserved text; an empty row raises IndexError uncaught. -/
def do_script_line_v101 (line : List PyVal) (preserve : PyStr)
    (regs : List (PyStr × Nat)) (st0 : TState) : Except PyErr DslRes := do
  let key ← match line.get? 0 with
    | some k => Except.ok k
    | Option.none => Except.error PyErr.indexError
  let addrOpt := match key with
    | PyVal.str s => List.lookup s regs
    | _ => Option.none
  match addrOpt with
  | Option.none => Except.ok ⟨ch "*** ERROR *** unknown key " ++ pyShow key, st0⟩
  | some addr => do
    let val ← match line.get? 1 with
      | some v => Except.ok v
      | Option.none => Except.error PyErr.indexError
    let write := if line.length < 3 then false else pyTruthy (line.getD 2 PyVal.none)
    let iterations ← if line.length < 5 then Except.ok 1 else toIterations (line.getD 4 PyVal.none)
    let desc0 ← descOf line
    let assertion := assertionOf desc0
    let keyName ← keyAtAddr regs addr
    let shown := keyName ++ ch "(" ++ pyShowNat addr ++ ch ")"
    let header ←
      if write then Except.ok (ch "Write " ++ pyShow val ++ ch " to " ++ shown)
      else do
        let gt1 ← pyGt1 val
        if gt1 then
          Except.ok (ch "Read " ++ pyShow val ++ ch " registers starting at " ++ shown)
        else Except.ok (ch "Read from " ++ shown)
    let valGT1 ← if write then Except.ok false else pyGt1 val
    let cfg : DslCfg := ⟨addr, write, val, valGT1, assertion, iterations⟩
    let res ← dslLoop_v101 cfg iterations 0 (preserve ++ header ++ descDisplay desc0) st0
    Except.ok ⟨res.1 ++ ch "\n", res.2⟩

/-! ## Cell coercion and run_script (lines 831-873) -/

/-- Python int(text) on the fragment used by scripts: optional surrounding
whitespace, optional sign, one or more ASCII digits.  (Digit-group
underscores and non-ASCII digits are outside the model.) -/
def pyParseInt (s : PyStr) : Option Int :=
  let t := pyStripWs s
  let signed : Int × PyStr :=
    match t with
    | '+' :: rest => (1, rest)
    | '-' :: rest => (-1, rest)
    | _ => (1, t)
  let u := signed.2
  if ! u.isEmpty && u.all Char.isDigit then some (signed.1 * digitsToNat u)
  else Option.none

/-- Exponent part of a float literal, after the e: optional sign and
digits consuming the rest of the text. -/
def parseExp (s : PyStr) : Option Int :=
  let signed : Int × PyStr :=
    match s with
    | '+' :: rest => (1, rest)
    | '-' :: rest => (-1, rest)
    | _ => (1, s)
  let u := signed.2
  if ! u.isEmpty && u.all Char.isDigit then some (signed.1 * digitsToNat u)
  else Option.none

/-- Python float(text) on finite decimal literals: optional surrounding
whitespace, optional sign, digits with an optional decimal point (digits on
at least one side) and an optional exponent.  The special values inf,
infinity and nan are outside the model; the value is kept as an exact
rational (IEEE rounding is not modelled) and no claim inspects it. -/
def pyParseFloat (s : PyStr) : Option Rat :=
  let t := pyStripWs s
  let signed : Int × PyStr :=
    match t with
    | '+' :: rest => (1, rest)
    | '-' :: rest => (-1, rest)
    | _ => (1, t)
  let u := signed.2
  let ip := u.takeWhile Char.isDigit
  let rest1 := u.dropWhile Char.isDigit
  let core : Option (Nat × Nat × PyStr) :=
    match rest1 with
    | '.' :: rest2 =>
      let fp := rest2.takeWhile Char.isDigit
      let rest3 := rest2.dropWhile Char.isDigit
      if ip.isEmpty && fp.isEmpty then Option.none
      else some (digitsToNat (ip ++ fp), fp.length, rest3)
    | _ => if ip.isEmpty then Option.none else some (digitsToNat ip, 0, rest1)
  match core with
  | Option.none => Option.none
  | some (mant, fl, rest) =>
    let mk : Int → Option Rat := fun e =>
      let num : Int := signed.1 * (mant : Int)
      if 0 ≤ e then some (mkRat (num * (10 : Int) ^ e.toNat) ((10 : Nat) ^ fl))
      else some (mkRat num ((10 : Nat) ^ fl * (10 : Nat) ^ (-e).toNat))
    match rest with
    | [] => mk 0
    | 'e' :: re => (parseExp re).bind mk
    | 'E' :: re => (parseExp re).bind mk
    | _ => Option.none

/-- Embedding of the cell coercion in run_script (lines 848-860): try int,
then float, then the case-insensitive boolean words, else keep the text. -/
def coerce (s : PyStr) : PyVal :=
  match pyParseInt s with
  | some n => PyVal.int n
  | Option.none =>
    match pyParseFloat s with
    | some q => PyVal.float q
    | Option.none =>
      if pyLower s = ch "false" then PyVal.bool false
      else if pyLower s = ch "true" then PyVal.bool true
      else PyVal.str s

/-- Executable script rows (line 834): lines whose stripped content is
nonempty and whose first character is not the hash comment marker. -/
def executableLines (ls : List PyStr) : List PyStr :=
  ls.filter (fun l => ! (pyStripWs l).isEmpty && l.head? != some '#')

/-- Comma-split of a script row with csv skipinitialspace semantics on the
modelled quote-free rows: blanks directly after a separator are dropped. -/
def csvRow (l : PyStr) : List PyStr :=
  match l.splitOn ',' with
  | [] => []
  | f :: rest => f :: rest.map (fun g => g.dropWhile (fun c => c == ' '))

/-- Python str() of a list of strings, used by the too-few-columns message. -/
def pyReprRow (row : List PyStr) : PyStr :=
  ch "[" ++ List.intercalate (ch ", ") (row.map (fun f => [sq] ++ f ++ [sq])) ++ ch "]"

/-- The failure marker scanned for in the final report. -/
def failMarker : PyStr := ch "*** FAIL ***"

/-- The error marker scanned for in the final report. -/
def errMarker : PyStr := ch "*** ERROR ***"

/-- The command-count trailer line (line 865). -/
def countLine (n : Nat) : PyStr := pyShowNat n ++ ch " commands processed.\n"

/-- Trailer appended after all rows (lines 865-869): the command count, then
the failure summary chosen by scanning the report for either marker. -/
def scriptTrailer (r : PyStr) (n : Nat) : PyStr :=
  let r1 := r ++ countLine n
  if failMarker <:+: r1 ∨ errMarker <:+: r1 then
    r1 ++ ch "*** AT LEAST ONE COMMAND FAILED ***"
  else r1 ++ ch "No errors detected"

/-- Row loop of run_script (lines 839-864): short rows are reported and
skipped, other rows are coerced cell-wise and executed, and a newline is
ensured after each row. -/
def runRows (regs : List (PyStr × Nat)) :
    List (List PyStr) → PyStr → TState → Except PyErr (PyStr × TState)
  | [], ret, st => Except.ok (ret, st)
  | row :: rest, ret, st =>
    if row.length < 5 then
      runRows regs rest (ret ++ ch "not enough columns in \"" ++ pyReprRow row ++ ch "\"\n") st
    else do
      let b := row.map coerce
      let res ← do_script_line b ret regs st
      let ret2 := if res.ret.isEmpty || res.ret.getLast? != some '\n'
        then res.ret ++ ch "\n" else res.ret
      runRows regs rest ret2 res.st

/-- Result of a whole script run. -/
structure RunRes where
  report : PyStr
  st : TState
  deriving DecidableEq, Repr

/-- Embedding of run_script (src/93-0000020.py lines 831-873).  The script
file content is passed as its list of lines without terminators; the
displayed report is returned. -/
def run_script (scriptLines : List PyStr) (regs : List (PyStr × Nat))
    (st0 : TState) : Except PyErr RunRes := do
  let lines := executableLines scriptLines
  let rows := lines.map csvRow
  let (ret, st) ← runRows regs rows [] st0
  Except.ok ⟨scriptTrailer ret lines.length, st⟩

/-! ## Helper lemmas about the iteration loop -/

/-- Reduction of a successful bind in the Except monad. -/
@[simp] lemma except_ok_bind {ε α β : Type} (a : α) (f : α → Except ε β) :
    (Except.ok a : Except ε α) >>= f = f a := rfl

/-- Reduction of a failed bind in the Except monad. -/
@[simp] lemma except_error_bind {ε α β : Type} (e : ε) (f : α → Except ε β) :
    (Except.error e : Except ε α) >>= f = Except.error e := rfl

/-- Pure in the Except monad is ok. -/
@[simp] lemma except_pure_eq_ok {ε α : Type} (a : α) :
    (pure a : Except ε α) = Except.ok a := rfl

/-- A single-read iteration always appends exactly one readOne call,
whatever the oracle answers. -/
lemma dslIter_calls_readOne (cfg : DslCfg) (hw : cfg.write = false)
    (hv : cfg.valGT1 = false) (st : TState) :
    ((dslIter cfg st).2.2).calls = st.calls ++ [TCall.readOne cfg.addr] := by
  obtain ⟨tr, ca, co⟩ := st
  cases tr with
  | nil => simp [dslIter, hw, hv, read_register, nextResp]
  | cons r rs => cases r <;> simp [dslIter, hw, hv, read_register, nextResp]

/-- A write iteration always appends exactly one writeOne call, whatever the
oracle answers. -/
lemma dslIter_calls_writeOne (cfg : DslCfg) (hw : cfg.write = true) (st : TState) :
    ((dslIter cfg st).2.2).calls = st.calls ++ [TCall.writeOne cfg.addr cfg.val] := by
  obtain ⟨tr, ca, co⟩ := st
  cases tr with
  | nil => simp [dslIter, hw, write_register, nextResp]
  | cons r rs => cases r <;> simp [dslIter, hw, write_register, nextResp]

/-- The single-read loop of the current version never aborts: it runs all k
iterations and issues exactly k readOne calls. -/
lemma dslLoop_calls_readOne (cfg : DslCfg) (hw : cfg.write = false)
    (hv : cfg.valGT1 = false) :
    ∀ (k i : Nat) (acc : PyStr) (st : TState),
      ((dslLoop cfg k i acc st).2).calls =
        st.calls ++ List.replicate k (TCall.readOne cfg.addr) := by
  intro k
  induction k with
  | zero => intro i acc st; simp [dslLoop]
  | succ k ih =>
    intro i acc st
    rw [dslLoop]
    rw [ih]
    rw [dslIter_calls_readOne cfg hw hv st]
    simp [List.replicate_succ]

/-- The write loop of the current version never aborts: it runs all k
iterations and issues exactly k writeOne calls. -/
lemma dslLoop_calls_writeOne (cfg : DslCfg) (hw : cfg.write = true) :
    ∀ (k i : Nat) (acc : PyStr) (st : TState),
      ((dslLoop cfg k i acc st).2).calls =
        st.calls ++ List.replicate k (TCall.writeOne cfg.addr cfg.val) := by
  intro k
  induction k with
  | zero => intro i acc st; simp [dslLoop]
  | succ k ih =>
    intro i acc st
    rw [dslLoop]
    rw [ih]
    rw [dslIter_calls_writeOne cfg hw st]
    simp [List.replicate_succ]

/-- C1: the claim says every 8-word frame decodes to a display line, with any
table-lookup miss (in particular a J1939_STATUS value not in the 4-entry
status table) rendered as the raw numeric/hex value.  In the code the miss
branch evaluates hex(j1939_status) where j1939_status is None, so decoding
the frame [2, 2, 1, 2, 4, 0, 0, 0] (level CRIT, code J1939_STATUS, value0 = 4
absent from the table) raises TypeError instead of producing a line, while a
value0 inside the table decodes normally. -/
theorem c1_j1939_status_lookup_miss_crashes :
    showlog [2, 2, 1, 2, 4, 0, 0, 0] false [] Option.none = Except.error PyErr.typeError
    ∧ showlog [2, 2, 1, 4, 2, 0, 0, 0] false [] Option.none =
        Except.ok (ch "CRIT, J1939_STATUS, CAN_B, bytes:4, NORMALDATATRAFFIC\n") :=
  ⟨rfl, rfl⟩

/-- C2: byteCount above 8 is indeed flagged and clamped to 8 (first frame),
but for an odd byteCount the raw-data fallback takes the extra trailing byte
from ret[4 + ceil(byteCount / 2)]: for byteCount = 5 that is the fourth value
word (high byte 0x77), not the third value word (high byte 0x55) that the
claim names, and for byteCount = 7 the index 4 + 4 = 8 is out of range and
decoding raises IndexError. -/
theorem c2_odd_byte_count_trailing_byte :
    showlog [2, 99, 0, 11, 0x1122, 0x3344, 0x5566, 0x7788] false [] Option.none =
      Except.ok (ch "CRIT, 0x63, CAN_A, bytes(illegal value, max 8):11, data: 0x11 0x22 0x33 0x44 0x55 0x66 0x77 0x88 \n")
    ∧ showlog [2, 99, 0, 5, 0x1122, 0x3344, 0x5566, 0x7788] false [] Option.none =
        Except.ok (ch "CRIT, 0x63, CAN_A, bytes:5, data: 0x11 0x22 0x33 0x44 0x77 \n")
    ∧ ¬ (ch "0x55" <:+: ch "CRIT, 0x63, CAN_A, bytes:5, data: 0x11 0x22 0x33 0x44 0x77 \n")
    ∧ (ch "0x77" <:+: ch "CRIT, 0x63, CAN_A, bytes:5, data: 0x11 0x22 0x33 0x44 0x77 \n")
    ∧ showlog [2, 99, 0, 7, 0x1122, 0x3344, 0x5566, 0x7788] false [] Option.none =
        Except.error PyErr.indexError :=
  ⟨rfl, rfl, by decide, by decide, rfl⟩

/-- C7: the claim says each of the two low bits of value1 renders its flag
exactly when the bit is set.  The code tests (value1 & 0x0002) == 1, which is
never true, so the LVCO flag is never rendered: with value1 = 2 (LVCO bit
set, warning bit clear) the BIT field comes out empty, and with value1 = 3
(both bits set) only the warning flag appears; the high byte of value1 is
decoded through the charger-mode table and set flags are joined by the
semicolon separator with outer separators stripped. -/
theorem c7_lvco_flag_never_rendered :
    showlog [2, 0xFF22, 0, 8, 100, 2, 0x0301, 0] false [] Option.none =
      Except.ok (ch "CRIT, Controller 3rd PGN, CAN_A, bytes:8, BATTERY_VOLTAGE:100, CHARGER_MODE:Charging, BIT:, CHARGING_CURRENT:3, GEN_CONTROL:Auto\n")
    ∧ ¬ (ch "LVCO" <:+: ch "CRIT, Controller 3rd PGN, CAN_A, bytes:8, BATTERY_VOLTAGE:100, CHARGER_MODE:Charging, BIT:, CHARGING_CURRENT:3, GEN_CONTROL:Auto\n")
    ∧ showlog [2, 0xFF22, 0, 8, 100, 3, 0x0301, 0] false [] Option.none =
        Except.ok (ch "CRIT, Controller 3rd PGN, CAN_A, bytes:8, BATTERY_VOLTAGE:100, CHARGER_MODE:Charging, BIT:Low voltage warning, CHARGING_CURRENT:3, GEN_CONTROL:Auto\n") :=
  ⟨rfl, by decide, rfl⟩

/-- C3 counterexample: in the current version a row naming an unknown
register appends the marker of the broad exception handler, not the literal
unknown key marker the claim states: executing the row NOPE on a report P|
yields a report that nowhere contains the text unknown key. -/
theorem c3_counterexample_no_unknown_key_marker :
    do_script_line
      [PyVal.str (ch "NOPE"), PyVal.int 1, PyVal.bool false, PyVal.int 0, PyVal.int 1]
      (ch "P|") regsHyPR ⟨[TResp.ok 7], [], []⟩ =
      Except.ok ⟨ch "P|Unexpected register name: " ++ [sq] ++ ch "NOPE" ++ [sq] ++ ch ". *** FAIL ***",
        ⟨[TResp.ok 7], [],
         ch "Unexpected register name: " ++ [sq] ++ ch "NOPE" ++ [sq] ++ ch ". *** FAIL ***"⟩⟩
    ∧ ¬ (ch "unknown key" <:+:
          (ch "P|Unexpected register name: " ++ [sq] ++ ch "NOPE" ++ [sq] ++ ch ". *** FAIL ***")) :=
  ⟨rfl, by decide⟩

/-- C3 amended: for a row whose register name is absent from the active map
no transport call is issued and the run continues with the next row, but the
marker differs from the claim.  The current version appends the text
Unexpected register name: (quoted name). *** FAIL *** to the preserved
report (also storing it in comm_status); the V1.01 build produces the
claimed literal *** ERROR *** unknown key (name) but assigns it, replacing
the report accumulated so far instead of appending to it.  The concrete run
shows the run continuing: the unknown-name row is followed by a successful
read of the next row, the only transport call issued. -/
theorem c3_unknown_register_both_versions :
    (∀ (name preserve : PyStr) (regs : List (PyStr × Nat)) (st : TState),
      List.lookup name regs = Option.none →
      do_script_line [PyVal.str name, PyVal.int 1, PyVal.bool false, PyVal.int 0, PyVal.int 1]
        preserve regs st =
        Except.ok ⟨preserve ++ ch "Unexpected register name: " ++ [sq] ++ name ++ [sq] ++ ch ". *** FAIL ***",
          ⟨st.trans, st.calls,
           ch "Unexpected register name: " ++ [sq] ++ name ++ [sq] ++ ch ". *** FAIL ***"⟩⟩)
    ∧ (∀ (name preserve : PyStr) (regs : List (PyStr × Nat)) (st : TState),
      List.lookup name regs = Option.none →
      do_script_line_v101 [PyVal.str name, PyVal.int 1, PyVal.bool false, PyVal.int 0, PyVal.int 1]
        preserve regs st =
        Except.ok ⟨ch "*** ERROR *** unknown key " ++ name, st⟩)
    ∧ run_script [ch "NOPE,1,false,0,1", ch "BUS_VOLTAGE,1,false,0,1"] regsHyPR
        ⟨[TResp.ok 7], [], []⟩ =
        Except.ok ⟨ch "Unexpected register name: " ++ [sq] ++ ch "NOPE" ++ [sq] ++ ch ". *** FAIL ***\nRead from BUS_VOLTAGE: 7\n2 commands processed.\n*** AT LEAST ONE COMMAND FAILED ***",
          ⟨[], [TCall.readOne 45], []⟩⟩ := by
  refine ⟨?_, ?_, ?_⟩
  · intro name preserve regs st h
    obtain ⟨tr, ca, co⟩ := st
    simp [do_script_line, resolveAddr, h]
  · intro name preserve regs st h
    simp [do_script_line_v101, h, pyShow]
  · rfl

/-- C3 witness: the amended statement applied at the concrete name NOPE in
the HyPR register map. -/
theorem c3_unknown_register_both_versions_witness :
    do_script_line [PyVal.str (ch "NOPE"), PyVal.int 1, PyVal.bool false, PyVal.int 0, PyVal.int 1]
      (ch "P2|") regsHyPR ⟨[], [], []⟩ =
      Except.ok ⟨ch "P2|" ++ ch "Unexpected register name: " ++ [sq] ++ ch "NOPE" ++ [sq] ++ ch ". *** FAIL ***",
        ⟨[], [],
         ch "Unexpected register name: " ++ [sq] ++ ch "NOPE" ++ [sq] ++ ch ". *** FAIL ***"⟩⟩
    ∧ do_script_line_v101 [PyVal.str (ch "NOPE"), PyVal.int 1, PyVal.bool false, PyVal.int 0, PyVal.int 1]
        (ch "P2|") regsHyPR ⟨[], [], []⟩ =
        Except.ok ⟨ch "*** ERROR *** unknown key " ++ ch "NOPE", ⟨[], [], []⟩⟩ :=
  ⟨c3_unknown_register_both_versions.1 (ch "NOPE") (ch "P2|") regsHyPR ⟨[], [], []⟩ rfl,
   c3_unknown_register_both_versions.2.1 (ch "NOPE") (ch "P2|") regsHyPR ⟨[], [], []⟩ rfl⟩

/-- C4 counterexample: an illegal-address transport error is not a hard stop
for the row.  With repeat count 2 and an IllegalRequestError on the first
read, the first iteration continues with the placeholder (Null) and the
second iteration still issues its read: two readOne calls are recorded, so
the row did not abort. -/
theorem c4_counterexample_illegal_does_not_abort_row :
    do_script_line
      [PyVal.str (ch "BUS_VOLTAGE"), PyVal.int 1, PyVal.bool false, PyVal.int 0, PyVal.int 2]
      [] regsHyPR ⟨[TResp.illegal, TResp.ok 7], [], []⟩ =
      Except.ok ⟨ch "Read from BUS_VOLTAGE: 1:(Null); \n2:7\n",
        ⟨[], [TCall.readOne 45, TCall.readOne 45], ch "Illegal request"⟩⟩ := rfl

/-- C4 amended: in the current version no transport error terminates the row
or the run.  A single-register read row with repeat count k completes all k
iterations and issues exactly k readOne calls whatever the oracle answers,
and a write row likewise issues exactly k writeOne calls; an
IllegalRequestError iteration is reported through comm_status and continues
with the placeholder (Null), while InvalidResponseError and NoResponseError
iterations continue with the None placeholder. -/
theorem c4_transport_errors_never_abort :
    (∀ (regs : List (PyStr × Nat)) (name : PyStr) (addr k : Nat)
        (trans : List TResp) (calls0 : List TCall) (comm0 : PyStr),
      List.lookup name regs = some addr →
      ∃ res, do_script_line
          [PyVal.str name, PyVal.int 1, PyVal.bool false, PyVal.int 0, PyVal.int (k : Int)]
          [] regs ⟨trans, calls0, comm0⟩ = Except.ok res ∧
        res.st.calls = calls0 ++ List.replicate k (TCall.readOne addr))
    ∧ (∀ (regs : List (PyStr × Nat)) (name : PyStr) (addr k : Nat) (v : Int)
        (trans : List TResp) (calls0 : List TCall) (comm0 : PyStr),
      List.lookup name regs = some addr →
      ∃ res, do_script_line
          [PyVal.str name, PyVal.int v, PyVal.bool true, PyVal.int 0, PyVal.int (k : Int)]
          [] regs ⟨trans, calls0, comm0⟩ = Except.ok res ∧
        res.st.calls = calls0 ++ List.replicate k (TCall.writeOne addr (PyVal.int v)))
    ∧ do_script_line
        [PyVal.str (ch "BUS_VOLTAGE"), PyVal.int 1, PyVal.bool false, PyVal.int 0, PyVal.int 1]
        [] regsHyPR ⟨[TResp.illegal], [], []⟩ =
        Except.ok ⟨ch "Read from BUS_VOLTAGE: (Null)\n",
          ⟨[], [TCall.readOne 45], ch "Illegal request"⟩⟩
    ∧ do_script_line
        [PyVal.str (ch "BUS_VOLTAGE"), PyVal.int 1, PyVal.bool false, PyVal.int 0, PyVal.int 1]
        [] regsHyPR ⟨[TResp.invalid], [], []⟩ =
        Except.ok ⟨ch "Read from BUS_VOLTAGE: None\n",
          ⟨[], [TCall.readOne 45], ch "Invalid response"⟩⟩
    ∧ do_script_line
        [PyVal.str (ch "BUS_VOLTAGE"), PyVal.int 1, PyVal.bool false, PyVal.int 0, PyVal.int 1]
        [] regsHyPR ⟨[TResp.noResponse], [], []⟩ =
        Except.ok ⟨ch "Read from BUS_VOLTAGE: None\n",
          ⟨[], [TCall.readOne 45], ch "No response"⟩⟩ := by
  refine ⟨?_, ?_, rfl, rfl, rfl⟩
  · intro regs name addr k trans calls0 comm0 h
    simp [do_script_line, resolveAddr, pyTruthy, toIterations, descOf, assertionOf,
      descDisplay, pyGt1, toRatNum, pyShow, h]
    exact dslLoop_calls_readOne _ rfl rfl k 0 _ _
  · intro regs name addr k v trans calls0 comm0 h
    simp [do_script_line, resolveAddr, pyTruthy, toIterations, descOf, assertionOf,
      descDisplay, pyGt1, toRatNum, pyShow, h]
    exact dslLoop_calls_writeOne _ rfl k 0 _ _

/-- C4 witness: the amended statement applied with the HyPR map, register
BUS_VOLTAGE at address 45, repeat count 2, and an oracle raising
IllegalRequestError then NoResponseError for the read row, and
InvalidResponseError for the write row. -/
theorem c4_transport_errors_never_abort_witness :
    (∃ res, do_script_line
        [PyVal.str (ch "BUS_VOLTAGE"), PyVal.int 1, PyVal.bool false, PyVal.int 0, PyVal.int 2]
        [] regsHyPR ⟨[TResp.illegal, TResp.noResponse], [], []⟩ = Except.ok res ∧
      res.st.calls = [] ++ List.replicate 2 (TCall.readOne 45))
    ∧ (∃ res, do_script_line
        [PyVal.str (ch "BUS_VOLTAGE"), PyVal.int 9, PyVal.bool true, PyVal.int 0, PyVal.int 1]
        [] regsHyPR ⟨[TResp.invalid], [], []⟩ = Except.ok res ∧
      res.st.calls = [] ++ List.replicate 1 (TCall.writeOne 45 (PyVal.int 9))) :=
  ⟨c4_transport_errors_never_abort.1 regsHyPR (ch "BUS_VOLTAGE") 45 2
      [TResp.illegal, TResp.noResponse] [] [] rfl,
   c4_transport_errors_never_abort.2.1 regsHyPR (ch "BUS_VOLTAGE") 45 1 9
      [TResp.invalid] [] [] rfl⟩

/-- The assertion x > 0 parses to a comparison of the bound name against the
literal zero, so its evaluation reduces to the Python comparison of the
bound result with the integer 0. -/
lemma evalAssertion_x_gt_0 (x : PyVal) :
    evalAssertion (ch "x > 0") x = pyCompare x CmpOp.gt (PyVal.int 0) := rfl

/-- On an integer result the assertion x > 0 yields PASS exactly for
positive values and FAIL otherwise. -/
lemma assertText_x_gt_0_int (n : Int) :
    assertText (ch "x > 0") (PyVal.int n) =
      (if 0 < n then ch ": PASS" else ch ": *** FAIL ***") := by
  have h1 : evalAssertion (ch "x > 0") (PyVal.int n) =
      Except.ok (PyVal.bool (decide ((0 : Rat) < (n : Rat)))) := by
    rw [evalAssertion_x_gt_0]
    simp [pyCompare, toRatNum, cmpRat]
  simp only [assertText, h1, pyTruthy]
  rw [if_neg (by decide)]
  simp [Int.cast_pos]

/-- C5: an assertion is evaluated against the single binding x holding the
just-obtained result; truthy yields PASS, falsy yields FAIL, and an
evaluation failure yields the ERROR marker: x > 0 against a positive integer
read passes, against zero fails, against the None of a failed transport or
the (Null) placeholder of an illegal request raises TypeError and is
reported as ERROR, an unknown identifier raises NameError, and a malformed
expression raises SyntaxError — never a silent pass.  The last three
conjuncts show the full report lines produced by do_script_line. -/
theorem c5_assertion_markers :
    (∀ n : Int, 0 < n → assertText (ch "x > 0") (PyVal.int n) = ch ": PASS")
    ∧ (∀ n : Int, n ≤ 0 → assertText (ch "x > 0") (PyVal.int n) = ch ": *** FAIL ***")
    ∧ assertText (ch "x > 0") PyVal.none = ch ": *** ERROR *** " ++ errText EvalErr.typeErr
    ∧ assertText (ch "x > 0") (PyVal.str (ch "(Null)")) =
        ch ": *** ERROR *** " ++ errText EvalErr.typeErr
    ∧ assertText (ch "y > 0") (PyVal.int 7) =
        ch ": *** ERROR *** " ++ errText (EvalErr.nameErr (ch "y"))
    ∧ assertText (ch "x >") (PyVal.int 7) = ch ": *** ERROR *** " ++ errText EvalErr.synErr
    ∧ do_script_line
        [PyVal.str (ch "BUS_VOLTAGE"), PyVal.int 1, PyVal.bool false, PyVal.int 0,
         PyVal.int 1, PyVal.str (ch "assert:x > 0")]
        [] regsHyPR ⟨[TResp.ok 7], [], []⟩ =
        Except.ok ⟨ch "Read from BUS_VOLTAGE [assert:x > 0]: 7: PASS\n",
          ⟨[], [TCall.readOne 45], []⟩⟩
    ∧ do_script_line
        [PyVal.str (ch "BUS_VOLTAGE"), PyVal.int 1, PyVal.bool false, PyVal.int 0,
         PyVal.int 1, PyVal.str (ch "assert:x > 0")]
        [] regsHyPR ⟨[TResp.ok 0], [], []⟩ =
        Except.ok ⟨ch "Read from BUS_VOLTAGE [assert:x > 0]: 0: *** FAIL ***\n",
          ⟨[], [TCall.readOne 45], []⟩⟩
    ∧ do_script_line
        [PyVal.str (ch "BUS_VOLTAGE"), PyVal.int 1, PyVal.bool false, PyVal.int 0,
         PyVal.int 1, PyVal.str (ch "assert:x > 0")]
        [] regsHyPR ⟨[TResp.noResponse], [], []⟩ =
        Except.ok ⟨ch "Read from BUS_VOLTAGE [assert:x > 0]: None: *** ERROR *** comparison not supported between result and operand\n",
          ⟨[], [TCall.readOne 45], ch "No response"⟩⟩ := by
  refine ⟨?_, ?_, rfl, rfl, rfl, rfl, rfl, rfl, rfl⟩
  · intro n hn
    rw [assertText_x_gt_0_int, if_pos hn]
  · intro n hn
    rw [assertText_x_gt_0_int, if_neg (by omega)]

/-- C5 witness: the universally quantified conjuncts applied at the concrete
results 7 and 0. -/
theorem c5_assertion_markers_witness :
    assertText (ch "x > 0") (PyVal.int 7) = ch ": PASS"
    ∧ assertText (ch "x > 0") (PyVal.int 0) = ch ": *** FAIL ***" :=
  ⟨c5_assertion_markers.1 7 (by decide), c5_assertion_markers.2.1 0 (by decide)⟩

/-! ## Substring reasoning for the report trailer -/

/-- An infix of a list is an infix of any right-extension. -/
lemma infix_append_right {m r c : List Char} (h : m <:+: r) : m <:+: r ++ c := by
  obtain ⟨s, t, heq⟩ := h
  exact ⟨s, t ++ c, by rw [← heq]; simp⟩

/-- A pattern ending in a character that does not occur in the extension c
can only occur inside r: any occurrence overlapping c would place that last
character in c. -/
lemma infix_of_infix_append {md : List Char} {a : Char} {r c : List Char}
    (ha : a ∉ c) (h : (md ++ [a]) <:+: r ++ c) : (md ++ [a]) <:+: r := by
  obtain ⟨s, t, heq⟩ := h
  rcases List.append_eq_append_iff.mp heq with ⟨w, hr, ht⟩ | ⟨w, hu, hc⟩
  · exact ⟨s, w, by rw [hr]⟩
  · cases w with
    | nil =>
      rw [List.append_nil] at hu
      exact ⟨s, [], by rw [List.append_nil]; exact hu⟩
    | cons x xs =>
      exfalso
      have hlast : (s ++ (md ++ [a])).getLast? = some a := by
        rw [List.getLast?_append]
        simp
      rw [hu, List.getLast?_append] at hlast
      cases hx : (x :: xs).getLast? with
      | none => simp at hx
      | some b =>
        rw [hx] at hlast
        simp [Option.or] at hlast
        subst hlast
        exact ha (hc ▸ List.mem_append_left t (List.mem_of_getLast?_eq_some hx))

/-- Decimal digit characters are never the asterisk. -/
lemma digitChar_ne_star (m : Nat) (h : m < 10) : Nat.digitChar m ≠ '*' := by
  interval_cases m <;> decide

/-- The digit-accumulator of Nat.toDigits in base 10 never produces an
asterisk beyond what is already in the accumulator. -/
lemma toDigitsCore_ne_star :
    ∀ (f n : Nat) (ds : List Char), (∀ c ∈ ds, c ≠ '*') →
      ∀ c ∈ Nat.toDigitsCore 10 f n ds, c ≠ '*' := by
  intro f
  induction f with
  | zero =>
    intro n ds hds
    simpa [Nat.toDigitsCore] using hds
  | succ f ih =>
    intro n ds hds c hc
    have hds2 : ∀ e ∈ Nat.digitChar (n % 10) :: ds, e ≠ '*' := by
      intro e he
      rcases List.mem_cons.mp he with rfl | hmem
      · exact digitChar_ne_star _ (Nat.mod_lt _ (by norm_num))
      · exact hds e hmem
    rw [Nat.toDigitsCore] at hc
    by_cases h0 : n / 10 = 0
    · rw [if_pos h0] at hc
      exact hds2 c hc
    · rw [if_neg h0] at hc
      exact ih (n / 10) _ hds2 c hc

/-- The decimal rendering of a natural number contains no asterisk. -/
lemma pyShowNat_ne_star (n : Nat) : ∀ c ∈ pyShowNat n, c ≠ '*' := by
  have h : pyShowNat n = Nat.toDigitsCore 10 (n + 1) n [] := rfl
  rw [h]
  exact toDigitsCore_ne_star (n + 1) n [] (by simp)

/-- The command-count trailer line contains no asterisk, for every count. -/
lemma star_not_mem_countLine (n : Nat) : '*' ∉ countLine n := by
  intro h
  rw [countLine] at h
  rcases List.mem_append.mp h with h1 | h2
  · exact pyShowNat_ne_star n '*' h1 rfl
  · revert h2
    decide

/-- A marker ending in an asterisk occurs in the report extended by the
count line exactly when it occurs in the report itself. -/
lemma marker_infix_shift (md : List Char) (r : PyStr) (n : Nat) :
    ((md ++ ['*']) <:+: r ++ countLine n) ↔ ((md ++ ['*']) <:+: r) :=
  ⟨infix_of_infix_append (star_not_mem_countLine n), infix_append_right⟩

/-- The failure marker ends in an asterisk. -/
lemma failMarker_eq : failMarker = ch "*** FAIL **" ++ ['*'] := by decide

/-- The error marker ends in an asterisk. -/
lemma errMarker_eq : errMarker = ch "*** ERROR **" ++ ['*'] := by decide

/-- C6: after all rows, the report gains the command-count line and then
exactly one summary: the FAILED banner when either the FAIL or the ERROR
marker occurs anywhere in the accumulated report, and No errors detected
otherwise.  (The source scans the report after appending the count line,
which is equivalent because the count line can contain no marker.) -/
theorem c6_trailer_failure_summary (r : PyStr) (n : Nat) :
    ((failMarker <:+: r ∨ errMarker <:+: r) →
      scriptTrailer r n = r ++ countLine n ++ ch "*** AT LEAST ONE COMMAND FAILED ***")
    ∧ (¬ (failMarker <:+: r ∨ errMarker <:+: r) →
      scriptTrailer r n = r ++ countLine n ++ ch "No errors detected") := by
  have hf : (failMarker <:+: r ++ countLine n) ↔ (failMarker <:+: r) := by
    rw [failMarker_eq]
    exact marker_infix_shift _ r n
  have he : (errMarker <:+: r ++ countLine n) ↔ (errMarker <:+: r) := by
    rw [errMarker_eq]
    exact marker_infix_shift _ r n
  constructor
  · intro h
    have hcond : failMarker <:+: r ++ countLine n ∨ errMarker <:+: r ++ countLine n := by
      rcases h with h | h
      · exact Or.inl (hf.mpr h)
      · exact Or.inr (he.mpr h)
    simp only [scriptTrailer]
    rw [if_pos hcond]
  · intro h
    have hcond : ¬ (failMarker <:+: r ++ countLine n ∨ errMarker <:+: r ++ countLine n) := by
      rintro (hh | hh)
      · exact h (Or.inl (hf.mp hh))
      · exact h (Or.inr (he.mp hh))
    simp only [scriptTrailer]
    rw [if_neg hcond]

/-- C6 witness: the trailer statement applied to a report containing the
FAIL marker and to a marker-free report. -/
theorem c6_trailer_failure_summary_witness :
    scriptTrailer (ch "a *** FAIL *** b") 3 =
      ch "a *** FAIL *** b" ++ countLine 3 ++ ch "*** AT LEAST ONE COMMAND FAILED ***"
    ∧ scriptTrailer (ch "all good") 1 =
      ch "all good" ++ countLine 1 ++ ch "No errors detected" :=
  ⟨(c6_trailer_failure_summary (ch "a *** FAIL *** b") 3).1 (Or.inl (by decide)),
   (c6_trailer_failure_summary (ch "all good") 1).2 (by decide)⟩

/-- A successful lookup means the found address occurs among the map
addresses. -/
lemma lookup_mem_snd {n : PyStr} {a : Nat} :
    ∀ {m : List (PyStr × Nat)}, List.lookup n m = some a → a ∈ m.map Prod.snd := by
  intro m
  induction m with
  | nil => intro h; simp [List.lookup] at h
  | cons p rest ih =>
    intro h
    obtain ⟨k, v⟩ := p
    rw [List.lookup_cons] at h
    cases hnk : (n == k) with
    | true =>
      rw [hnk] at h
      simp at h
      subst h
      simp
    | false =>
      rw [hnk] at h
      exact List.mem_cons.mpr (Or.inr (ih h))

/-- C8: the reverse-lookup comprehension of line 725 does invert resolution
— in a register map whose addresses are pairwise distinct the reverse lookup
of a resolved address returns exactly the resolved name, and aliases are
semicolon-joined in map order (conjuncts 2 to 4, the last evaluated over the
HyPR map) — but the program as shipped never exhibits it: the comprehension
reads the global regs, which the current version leaves unbound (main()
assigns regs only as a local), so decoding any Modbus Registers frame raises
NameError instead of performing the reverse lookup (conjunct 1). -/
theorem c8_reverse_resolve_roundtrip :
    showlog [2, 0xFF23, 0x0201, 4, 52, 1, 0, 0] false [] Option.none =
      Except.error (PyErr.nameError (ch "regs"))
    ∧ (∀ (m : List (PyStr × Nat)) (n : PyStr) (a : Nat),
      (m.map Prod.snd).Nodup → List.lookup n m = some a → reverseRegister m a = n)
    ∧ reverseRegister [(ch "A", 1), (ch "B", 1)] 1 = ch "A;B"
    ∧ showlog [2, 0xFF23, 0x0201, 4, 52, 1, 0, 0] false [] (some regsHyPR) =
      Except.ok (ch "CRIT, Modbus Registers, CAN_B:02, bytes:4, WARMUP_STATE:WarmingUp\n") := by
  refine ⟨rfl, ?_, rfl, rfl⟩
  · intro m
    induction m with
    | nil => intro n a hnd h; simp [List.lookup] at h
    | cons p rest ih =>
      intro n a hnd hlk
      obtain ⟨k, v⟩ := p
      simp only [List.map_cons, List.nodup_cons] at hnd
      obtain ⟨hknotin, hndrest⟩ := hnd
      rw [List.lookup_cons] at hlk
      cases hnk : (n == k) with
      | true =>
        rw [hnk] at hlk
        simp only [Option.some.injEq] at hlk
        subst hlk
        have hkn : k = n := (beq_iff_eq.mp hnk).symm
        have hfr : List.filter (fun p => p.2 == v) rest = [] := by
          rw [List.filter_eq_nil_iff]
          intro q hq hq2
          simp only [beq_iff_eq] at hq2
          exact hknotin (hq2 ▸ List.mem_map_of_mem Prod.snd hq)
        simp [reverseRegister, List.filter_cons, hfr, hkn, List.intercalate]
      | false =>
        rw [hnk] at hlk
        have hmem : a ∈ rest.map Prod.snd := lookup_mem_snd hlk
        have hva : (v == a) = false := by
          rw [beq_eq_false_iff_ne]
          intro hv
          exact hknotin (hv ▸ hmem)
        have := ih n a hndrest hlk
        simpa [reverseRegister, List.filter_cons, hva] using this

/-- C8 witness: the round-trip conjunct applied to the HyPR map, whose
addresses are pairwise distinct, at the register BUS_VOLTAGE resolved to
address 45. -/
theorem c8_reverse_resolve_roundtrip_witness :
    reverseRegister regsHyPR 45 = ch "BUS_VOLTAGE" :=
  c8_reverse_resolve_roundtrip.2.1 regsHyPR (ch "BUS_VOLTAGE") 45 (by decide) (by decide)

/-- C9: cell coercion tries the parses in strict order — integer first, then
float, then the case-insensitive boolean words, else the raw text — so a
text parsing as an integer always becomes an Integer token, a text parsing
only as a float becomes a Float token, and in particular 5 coerces to the
integer 5 while 5.0 coerces to the float 5.  Totality and determinism hold
because coerce is a Lean function on all of PyStr. -/
theorem c9_coercion_strict_order :
    (∀ (s : PyStr) (n : Int), pyParseInt s = some n → coerce s = PyVal.int n)
    ∧ (∀ (s : PyStr) (q : Rat), pyParseInt s = Option.none → pyParseFloat s = some q →
        coerce s = PyVal.float q)
    ∧ (∀ s : PyStr, pyParseInt s = Option.none → pyParseFloat s = Option.none →
        pyLower s = ch "false" → coerce s = PyVal.bool false)
    ∧ (∀ s : PyStr, pyParseInt s = Option.none → pyParseFloat s = Option.none →
        pyLower s ≠ ch "false" → pyLower s = ch "true" → coerce s = PyVal.bool true)
    ∧ (∀ s : PyStr, pyParseInt s = Option.none → pyParseFloat s = Option.none →
        pyLower s ≠ ch "false" → pyLower s ≠ ch "true" → coerce s = PyVal.str s)
    ∧ coerce (ch "5") = PyVal.int 5
    ∧ coerce (ch "5.0") = PyVal.float 5
    ∧ coerce (ch "TRUE") = PyVal.bool true
    ∧ coerce (ch "BUS_VOLTAGE") = PyVal.str (ch "BUS_VOLTAGE") := by
  refine ⟨?_, ?_, ?_, ?_, ?_, by decide, by decide, by decide, by decide⟩
  · intro s n h1
    simp [coerce, h1]
  · intro s q h1 h2
    simp [coerce, h1, h2]
  · intro s h1 h2 h3
    simp [coerce, h1, h2, h3]
  · intro s h1 h2 h3 h4
    have hne : ch "true" ≠ ch "false" := by decide
    simp [coerce, h1, h2, h4, hne]
  · intro s h1 h2 h3 h4
    simp [coerce, h1, h2, h3, h4]

/-- C9 witness: the ordered-parse conjuncts applied at concrete cells. -/
theorem c9_coercion_strict_order_witness :
    coerce (ch "7") = PyVal.int 7
    ∧ coerce (ch "2.5") = PyVal.float (mkRat 5 2)
    ∧ coerce (ch "False") = PyVal.bool false
    ∧ coerce (ch "True") = PyVal.bool true
    ∧ coerce (ch "NOPE") = PyVal.str (ch "NOPE") :=
  ⟨c9_coercion_strict_order.1 (ch "7") 7 (by decide),
   c9_coercion_strict_order.2.1 (ch "2.5") (mkRat 5 2) (by decide) (by decide),
   c9_coercion_strict_order.2.2.1 (ch "False") (by decide) (by decide) (by decide),
   c9_coercion_strict_order.2.2.2.1 (ch "True") (by decide) (by decide) (by decide) (by decide),
   c9_coercion_strict_order.2.2.2.2.1 (ch "NOPE") (by decide) (by decide) (by decide) (by decide)⟩

/-- Script used to separate the reported command count from the number of
successfully executed commands: a comment line, a blank line, one good row,
one malformed row and one row naming an unknown register. -/
def c10Script : List PyStr :=
  [ch "# comment", ch "   ", ch "BUS_VOLTAGE,1,false,0,1", ch "x", ch "NOPE,1,false,0,1"]

/-- C10: the commands-processed trailer reports the number of non-blank
non-comment lines of the script, whatever the rows did: every completed run
ends with the trailer built from (executableLines script).length, and the
concrete script with one good, one malformed and one unknown-register row
reports 3 commands processed while only one transport call was issued. -/
theorem c10_trailer_counts_all_rows :
    (∀ (scriptLines : List PyStr) (regs : List (PyStr × Nat)) (st : TState) (res : RunRes),
      run_script scriptLines regs st = Except.ok res →
      ∃ body, res.report = scriptTrailer body (executableLines scriptLines).length)
    ∧ run_script c10Script regsHyPR ⟨[TResp.ok 7], [], []⟩ =
        Except.ok ⟨ch "Read from BUS_VOLTAGE: 7\nnot enough columns in \"[" ++ [sq] ++ ch "x" ++ [sq] ++ ch "]\"\nUnexpected register name: " ++ [sq] ++ ch "NOPE" ++ [sq] ++ ch ". *** FAIL ***\n3 commands processed.\n*** AT LEAST ONE COMMAND FAILED ***",
          ⟨[], [TCall.readOne 45], ch "Unexpected register name: " ++ [sq] ++ ch "NOPE" ++ [sq] ++ ch ". *** FAIL ***"⟩⟩
    ∧ (executableLines c10Script).length = 3 := by
  refine ⟨?_, rfl, rfl⟩
  intro scriptLines regs st res h
  simp only [run_script] at h
  cases hrows : runRows regs ((executableLines scriptLines).map csvRow) [] st with
  | error e =>
    rw [hrows] at h
    simp at h
  | ok pr =>
    obtain ⟨ret, st2⟩ := pr
    rw [hrows] at h
    simp only [except_ok_bind, except_pure_eq_ok, Except.ok.injEq] at h
    exact ⟨ret, by rw [← h]⟩

/-- C10 witness: the trailer-shape statement applied to the concrete run of
c10Script, whose successful result is given by the second conjunct of the
theorem itself. -/
theorem c10_trailer_counts_all_rows_witness :
    ∃ body,
      (⟨ch "Read from BUS_VOLTAGE: 7\nnot enough columns in \"[" ++ [sq] ++ ch "x" ++ [sq] ++ ch "]\"\nUnexpected register name: " ++ [sq] ++ ch "NOPE" ++ [sq] ++ ch ". *** FAIL ***\n3 commands processed.\n*** AT LEAST ONE COMMAND FAILED ***",
        ⟨[], [TCall.readOne 45], ch "Unexpected register name: " ++ [sq] ++ ch "NOPE" ++ [sq] ++ ch ". *** FAIL ***"⟩⟩ : RunRes).report =
        scriptTrailer body (executableLines c10Script).length :=
  c10_trailer_counts_all_rows.1 c10Script regsHyPR ⟨[TResp.ok 7], [], []⟩ _
    c10_trailer_counts_all_rows.2.1

end RemoteClient
